import Mathlib

/-!
Shallow embedding of the Node.js starter project
(Express app, global error handler, response envelope, pagination helper,
pick utility, process lifecycle handlers) and proofs of the specified
properties.
-/

/-! ### JavaScript value model

JavaScript numbers are modelled by `JNum`: either an integer or `NaN`
(the only number values the embedded helpers can produce on the inputs
of interest; no fractional arithmetic occurs in this code base).
`JSVal` covers the value shapes flowing through the utilities:
numbers, strings, booleans, `null` and `undefined`.
-/

/-- A JavaScript number: an integer or NaN. -/
inductive JNum
  | int (n : Int)
  | nan
deriving DecidableEq, Repr

/-- JavaScript subtraction with NaN propagation. -/
def jnumSub : JNum → JNum → JNum
  | .int a, .int b => .int (a - b)
  | _, _ => .nan

/-- JavaScript multiplication with NaN propagation. -/
def jnumMul : JNum → JNum → JNum
  | .int a, .int b => .int (a * b)
  | _, _ => .nan

/-- A JavaScript value. -/
inductive JSVal
  | vnum (n : JNum)
  | vstr (s : String)
  | vbool (b : Bool)
  | vnull
  | vundefined
deriving DecidableEq, Repr

/-- JavaScript truthiness: 0, NaN, the empty string, false, null and
undefined are falsy; everything else here is truthy. -/
def truthy : JSVal → Bool
  | .vnum (.int n) => n != 0
  | .vnum .nan => false
  | .vstr s => s != ""
  | .vbool b => b
  | .vnull => false
  | .vundefined => false

/-- Accumulating decimal parse of a character list; `none` on any
non-digit character. -/
def digitsCore (acc : Nat) : List Char → Option Nat
  | [] => some acc
  | c :: cs =>
    if c.isDigit then digitsCore (acc * 10 + (c.toNat - 48)) cs else none

/-- Decimal parse of a non-empty character list. -/
def digitsToNat : List Char → Option Nat
  | [] => none
  | cs => digitsCore 0 cs

/-- The `Number(...)` coercion on strings: the empty string is 0, a
string of decimal digits (with an optional leading minus sign) is that
integer, anything else is NaN. (Fractional, exponent, hexadecimal and
whitespace-trimmed forms do not occur in this code base and are out of
the model.) -/
def strToNumber (s : String) : JNum :=
  match s.data with
  | [] => .int 0
  | '-' :: cs =>
    match digitsToNat cs with
    | some n => .int (-(n : Int))
    | none => .nan
  | cs =>
    match digitsToNat cs with
    | some n => .int n
    | none => .nan

/-- The `Number(...)` coercion. -/
def toNumber : JSVal → JNum
  | .vnum n => n
  | .vstr s => strToNumber s
  | .vbool true => .int 1
  | .vbool false => .int 0
  | .vnull => .int 0
  | .vundefined => .nan

/-- The JavaScript `||` defaulting idiom `v || d` applied to an optional
field: an absent field is `undefined`, hence falsy, hence replaced by
the default; a present falsy value is also replaced by the default. -/
def jsOr (v : Option JSVal) (d : JSVal) : JSVal :=
  match v with
  | some x => if truthy x then x else d
  | none => d

/-! ### Error taxonomy and the global error handler

Transcribed from `src/app/middlewares/globalErrorHandler.ts`.
An error value reaching the handler is an `ApiError` (which extends
`Error` and carries a status code), some other `Error`, or an
unclassified thrown value (null, undefined, a string, a plain object)
which is not an `instanceof Error`; an unclassified value may still
carry a `stack` property, read via optional chaining.
-/

/-- An error value reaching the global error handler. -/
inductive JSError
  | apiError (statusCode : Int) (message : String) (stack : Option String)
  | genericError (message : String) (stack : Option String)
  | nonError (stack : Option String)
deriving DecidableEq, Repr

/-- The `error?.stack` optional-chain read. -/
def errStack : JSError → Option String
  | .apiError _ _ st => st
  | .genericError _ st => st
  | .nonError st => st

/-- An entry of the `errorMessages` list (`IGenericErrorMessage`). -/
structure IGenericErrorMessage where
  path : String
  message : String
deriving DecidableEq, Repr

/-- The `stack` field of the error response after JSON serialization:
`config.env === 'development' && error?.stack` is the stack trace in
development when present, is `undefined` (hence the field is omitted
from the serialized body) in development when the error has no stack,
and is `false` outside development. -/
inductive StackField
  | trace (s : String)
  | omitted
  | falseVal
deriving DecidableEq, Repr

/-- Value of the `stack` field: transcribed from
`config.env === 'development' && error?.stack` plus JSON
serialization's dropping of `undefined`-valued properties. -/
def stackValue (env : String) (error : JSError) : StackField :=
  if env = "development" then
    match errStack error with
    | some s => .trace s
    | none => .omitted
  else .falseVal

/-- The JSON body written by the global error handler. -/
structure ErrorHandlerResponse where
  statusCode : Int
  success : Bool
  message : String
  errorMessages : List IGenericErrorMessage
  stack : StackField
deriving DecidableEq, Repr

/-- The response computed by `globalErrorHandler`: the defaults
`statusCode = 500`, `message = 'Something went wrong!'`,
`errorMessages = []` are overwritten by the `instanceof ApiError` /
`instanceof Error` branches; the truthiness test `error?.message ? ... : []`
yields the single-element list exactly when the message is non-empty. -/
def globalErrorHandlerResponse (env : String) (error : JSError) :
    ErrorHandlerResponse :=
  let scMsgErrs : Int × String × List IGenericErrorMessage :=
    match error with
    | .apiError sc msg _ =>
        (sc, msg, if msg = "" then [] else [{ path := "", message := msg }])
    | .genericError msg _ =>
        (500, msg, if msg = "" then [] else [{ path := "", message := msg }])
    | .nonError _ => (500, "Something went wrong!", [])
  { statusCode := scMsgErrs.1
    success := false
    message := scMsgErrs.2.1
    errorMessages := scMsgErrs.2.2
    stack := stackValue env error }

/-- An observable action performed by the global error handler. -/
inductive HandlerEvent
  | logConsole
  | logErrorChannel
  | writeResponse (r : ErrorHandlerResponse)
deriving DecidableEq, Repr

/-- Whether an event is a log write. -/
def isLogEvent : HandlerEvent → Bool
  | .logConsole => true
  | .logErrorChannel => true
  | .writeResponse _ => false

/-- Whether an event is an HTTP response write. -/
def isResponseEvent : HandlerEvent → Bool
  | .writeResponse _ => true
  | _ => false

/-- The sequence of observable actions of `globalErrorHandler`: one log
write (the console in development, otherwise the error-channel logger —
a ternary, never both), then exactly one `res.status(...).json(...)`.
The handler body is straight-line code; totality of this definition
reflects that it terminates without throwing. -/
def globalErrorHandlerRun (env : String) (error : JSError) :
    List HandlerEvent :=
  [ if env = "development" then .logConsole else .logErrorChannel,
    .writeResponse (globalErrorHandlerResponse env error) ]

/-! ### Response envelope builder

Transcribed from `src/shared/sendResponse.ts`. A field of the
serialized JSON body is a value, the JSON `null`, or absent (the latter
when the computed property value is `undefined`, which `JSON.stringify`
drops). Note the source computes `meta: data.meta || null || undefined`,
which is the meta object when present and `undefined` otherwise.
-/

/-- A field of a serialized JSON object. -/
inductive JField (α : Type)
  | val (a : α)
  | nullVal
  | absent
deriving DecidableEq, Repr

/-- The pagination metadata block of the envelope. -/
structure IMeta where
  page : JNum
  limit : JNum
  total : JNum
deriving DecidableEq, Repr

/-- The input to `sendResponse` (`IApiResponse<T>`): `message`, `meta`
and `data` are optional; `none` is an omitted (undefined) field. -/
structure IApiResponse where
  statusCode : Int
  success : Bool
  message : Option JSVal
  meta : Option IMeta
  data : Option JSVal
deriving DecidableEq, Repr

/-- The serialized envelope body. -/
structure SerializedEnvelope where
  statusCode : Int
  success : Bool
  message : JField JSVal
  meta : JField IMeta
  data : JField JSVal
deriving DecidableEq, Repr

/-- The body built and serialized by `sendResponse`:
`message: data.message || null` (null when omitted or falsy),
`meta: data.meta || null || undefined` (`undefined` when omitted, so
the serialized field is absent), `data: data.data || null`. -/
def sendResponse (d : IApiResponse) : SerializedEnvelope :=
  { statusCode := d.statusCode
    success := d.success
    message :=
      match d.message with
      | some v => if truthy v then .val v else .nullVal
      | none => .nullVal
    meta :=
      match d.meta with
      | some m => .val m
      | none => .absent
    data :=
      match d.data with
      | some v => if truthy v then .val v else .nullVal
      | none => .nullVal }

/-! ### HTTP application routing

Transcribed from `src/app.ts`: `app.get('/', ...)` answers the root
route with the bare text `Hello World!`; the versioned router mounted
at `/api/v1` is next (Modelled from the spec: the route composition
component is an empty route table in this snapshot, so every request to
it falls through); the error-handler middleware is skipped for normal
requests; the final catch-all middleware answers 404 with a wrapped
JSON body.
-/

/-- An incoming HTTP request, reduced to the data the app inspects. -/
structure AppRequest where
  method : String
  originalUrl : String
deriving DecidableEq, Repr

/-- An HTTP response body: either a bare (unwrapped) text payload or a
wrapped JSON envelope carrying a success flag, a message and an
error-detail list. -/
inductive ResponseBody
  | bareText (s : String)
  | envelopeJson (success : Bool) (message : String)
      (errorMessages : List IGenericErrorMessage)
deriving DecidableEq, Repr

/-- Whether a body conforms to the wrapped-envelope shape (a JSON
object with the success flag and message, never a bare payload). -/
def isEnvelope : ResponseBody → Bool
  | .bareText _ => false
  | .envelopeJson _ _ _ => true

/-- An HTTP response of the application. -/
structure AppResponse where
  status : Int
  body : ResponseBody
deriving DecidableEq, Repr

/-- The application's response to a request on the non-error path:
the root `GET /` handler sends the bare string, everything else falls
through the empty `/api/v1` route table to the catch-all 404. -/
def appRespond (req : AppRequest) : AppResponse :=
  if req.method = "GET" && req.originalUrl = "/" then
    { status := 200, body := .bareText "Hello World!" }
  else
    { status := 404
      body := .envelopeJson false "Not Found"
        [{ path := req.originalUrl, message := "API Not Found" }] }

/-! ### Process entry point: unhandled rejection

Transcribed from `src/server.ts`: on `unhandledRejection`, if the
`server` reference is set, `server.close(cb)` is called and the
callback (run once the listener has closed) logs the rejection to the
error logger and exits with status 1; otherwise the process exits with
status 1 immediately, without logging.
-/

/-- An observable process-lifecycle action. -/
inductive ServerEvent
  | closeListener
  | logRejectionToErrorSink
  | exitProcess (code : Int)
deriving DecidableEq, Repr

/-- The sequence of actions the `unhandledRejection` handler performs,
as a function of whether the listener reference is set. -/
def onUnhandledRejection (server : Option Unit) : List ServerEvent :=
  match server with
  | some _ => [.closeListener, .logRejectionToErrorSink, .exitProcess 1]
  | none => [.exitProcess 1]

/-! ### Pagination helper

Transcribed from `src/helpers/paginationHelper.ts`:
`page = Number(options.page || 1)`, `limit = Number(options.limit || 10)`,
`skip = (page - 1) * limit`, `sortBy = options.sortBy || 'createdAt'`,
`sortOrder = options.sortOrder || 'desc'`. Fields are optional and, when
fed from query parameters, may hold strings; coercion and `||`
defaulting follow JavaScript semantics (`jsOr`, `toNumber`).
-/

/-- The input options (`IPaginationOptions`), all fields optional. -/
structure IPaginationOptions where
  page : Option JSVal
  limit : Option JSVal
  sortBy : Option JSVal
  sortOrder : Option JSVal
deriving DecidableEq, Repr

/-- The resolved options (`IOptionsResult`). -/
structure IOptionsResult where
  page : JNum
  limit : JNum
  skip : JNum
  sortBy : JSVal
  sortOrder : JSVal
deriving DecidableEq, Repr

/-- The pagination helper `calculatePagination`. -/
def calculatePagination (options : IPaginationOptions) : IOptionsResult :=
  let page := toNumber (jsOr options.page (.vnum (.int 1)))
  let limit := toNumber (jsOr options.limit (.vnum (.int 10)))
  let skip := jnumMul (jnumSub page (.int 1)) limit
  let sortBy := jsOr options.sortBy (.vstr "createdAt")
  let sortOrder := jsOr options.sortOrder (.vstr "desc")
  { page := page, limit := limit, skip := skip
    sortBy := sortBy, sortOrder := sortOrder }

/-! ### The pick utility

Transcribed from `src/shared/pick.ts`. A JavaScript object is an
association list with unique keys in insertion order; `obj[key]` is the
property's value, or `undefined` when absent; assignment overwrites an
existing property in place or appends a new one. The embedding is pure:
`pick` builds a fresh object and never mutates its argument.
-/

/-- A JavaScript object as an association list. -/
abbrev JSObj : Type := List (String × JSVal)

/-- The `Object.hasOwnProperty.call(obj, key)` test. -/
def hasOwnProperty (obj : JSObj) (k : String) : Bool :=
  obj.any (fun p => p.1 = k)

/-- Property lookup: `some v` when the property exists with value `v`,
`none` when absent. -/
def getProp (obj : JSObj) (k : String) : Option JSVal :=
  (List.find? (fun p => p.1 = k) obj).map (fun p => p.2)

/-- The member access `obj[key]`, which is `undefined` when absent. -/
def getPropD (obj : JSObj) (k : String) : JSVal :=
  (getProp obj k).getD .vundefined

/-- Property assignment `obj[key] = v`: overwrite the (unique) existing
property in place, or append a new one in insertion order. -/
def setProp : JSObj → String → JSVal → JSObj
  | [], k, v => [(k, v)]
  | p :: rest, k, v =>
    if p.1 = k then (k, v) :: rest else p :: setProp rest k v

/-- The body of the loop of `pick`:
`if (obj && Object.hasOwnProperty.call(obj, key)) finalObj[key] = obj[key]`. -/
def pickStep (obj : JSObj) (finalObj : JSObj) (key : String) : JSObj :=
  if hasOwnProperty obj key then setProp finalObj key (getPropD obj key)
  else finalObj

/-- The `pick` utility: folds over `keys`, copying each key that is an
own property of `obj` into the fresh result object. -/
def pick (obj : JSObj) (keys : List String) : JSObj :=
  List.foldl (pickStep obj) [] keys

/-! ### Helper lemmas -/

/-- The stack field of the handler response is `stackValue`. -/
theorem globalErrorHandlerResponse_stack (env : String) (e : JSError) :
    (globalErrorHandlerResponse env e).stack = stackValue env e := rfl

/-! ### Claim theorems -/

/-- C1: for every error passed to the global error handler, the HTTP
status code equals the error's own statusCode for the ApiError variant
and 500 otherwise, and the response message equals the error's message
in the ApiError and generic-Error cases and the fixed fallback in the
unclassified case. -/
theorem globalErrorHandler_statusCode_message (env : String) (e : JSError) :
    (∀ sc msg st, e = JSError.apiError sc msg st →
      (globalErrorHandlerResponse env e).statusCode = sc ∧
      (globalErrorHandlerResponse env e).message = msg) ∧
    (∀ msg st, e = JSError.genericError msg st →
      (globalErrorHandlerResponse env e).statusCode = 500 ∧
      (globalErrorHandlerResponse env e).message = msg) ∧
    (∀ st, e = JSError.nonError st →
      (globalErrorHandlerResponse env e).statusCode = 500 ∧
      (globalErrorHandlerResponse env e).message = "Something went wrong!") := by
  refine ⟨?_, ?_, ?_⟩
  · rintro sc msg st rfl
    exact ⟨rfl, rfl⟩
  · rintro msg st rfl
    exact ⟨rfl, rfl⟩
  · rintro st rfl
    exact ⟨rfl, rfl⟩

/-- Witness for C1: a 403 ApiError is answered with status 403 and the
error's message. -/
theorem globalErrorHandler_statusCode_message_witness :
    (globalErrorHandlerResponse "production"
      (JSError.apiError 403 "Forbidden" none)).statusCode = 403 ∧
    (globalErrorHandlerResponse "production"
      (JSError.apiError 403 "Forbidden" none)).message = "Forbidden" :=
  (globalErrorHandler_statusCode_message "production"
    (JSError.apiError 403 "Forbidden" none)).1 403 "Forbidden" none rfl

/-- C2 counterexample: for an unclassified thrown value the resolved
message is the non-empty fallback, yet the errorMessages list is empty,
not the single-element list the claim requires. -/
theorem errorMessages_nonError_counterexample :
    (globalErrorHandlerResponse "production"
      (JSError.nonError none)).message = "Something went wrong!" ∧
    "Something went wrong!" ≠ "" ∧
    (globalErrorHandlerResponse "production"
      (JSError.nonError none)).errorMessages = [] :=
  ⟨rfl, by decide, rfl⟩

/-- C2 amended: errorMessages is the single-element list exactly when
the error is an ApiError or a generic Error with a non-empty message,
and the empty list when that message is empty; for unclassified thrown
values it is always empty, even though the resolved message is the
non-empty fallback. -/
theorem errorMessages_shape (env : String) (e : JSError) :
    (∀ sc msg st, e = JSError.apiError sc msg st →
      (globalErrorHandlerResponse env e).errorMessages =
        if msg = "" then [] else [{ path := "", message := msg }]) ∧
    (∀ msg st, e = JSError.genericError msg st →
      (globalErrorHandlerResponse env e).errorMessages =
        if msg = "" then [] else [{ path := "", message := msg }]) ∧
    (∀ st, e = JSError.nonError st →
      (globalErrorHandlerResponse env e).errorMessages = []) := by
  refine ⟨?_, ?_, ?_⟩
  · rintro sc msg st rfl
    rfl
  · rintro msg st rfl
    rfl
  · rintro st rfl
    rfl

/-- Witness for the amended C2: a generic Error with non-empty message
gets the single-element list, an unclassified value the empty list. -/
theorem errorMessages_shape_witness :
    (globalErrorHandlerResponse "production"
      (JSError.genericError "boom" none)).errorMessages =
      [{ path := "", message := "boom" }] ∧
    (globalErrorHandlerResponse "production"
      (JSError.nonError (some "tr"))).errorMessages = [] := by
  constructor
  · have h := (errorMessages_shape "production"
      (JSError.genericError "boom" none)).2.1 "boom" none rfl
    simpa using h
  · exact (errorMessages_shape "production"
      (JSError.nonError (some "tr"))).2.2 (some "tr") rfl

/-- C7: the stack field of the error response carries the error's stack
trace if and only if the configured environment is development; in
every other environment it is the suppressing value `false` (and in
development an error without a stack yields an omitted field, never a
trace). -/
theorem stack_trace_iff_development (env : String) (e : JSError) (s : String) :
    ((globalErrorHandlerResponse env e).stack = StackField.trace s ↔
      env = "development" ∧ errStack e = some s) ∧
    (env ≠ "development" →
      (globalErrorHandlerResponse env e).stack = StackField.falseVal) := by
  rw [globalErrorHandlerResponse_stack]
  unfold stackValue
  by_cases h : env = "development"
  · subst h
    simp only [if_pos rfl, ne_eq, not_true_eq_false, false_implies, and_true,
      true_and]
    cases he : errStack e <;> simp
  · simp [h]

/-- Witness for C7: in development the stack trace is exposed, in
production it is the value false. -/
theorem stack_trace_iff_development_witness :
    (globalErrorHandlerResponse "development"
      (JSError.genericError "boom" (some "tr"))).stack = StackField.trace "tr" ∧
    (globalErrorHandlerResponse "production"
      (JSError.genericError "boom" (some "tr"))).stack = StackField.falseVal :=
  ⟨(stack_trace_iff_development "development"
      (JSError.genericError "boom" (some "tr")) "tr").1.mpr ⟨rfl, rfl⟩,
   (stack_trace_iff_development "production"
      (JSError.genericError "boom" (some "tr")) "tr").2 (by decide)⟩

/-- C8: on any error value the global error handler performs exactly
one log write — to the console exactly in a development environment,
to the error-channel logger otherwise, never both — and writes exactly
one HTTP response; the run is a total function, so the handler
terminates without throwing. -/
theorem globalErrorHandler_one_log_one_response (env : String) (e : JSError) :
    List.countP isLogEvent (globalErrorHandlerRun env e) = 1 ∧
    List.countP isResponseEvent (globalErrorHandlerRun env e) = 1 ∧
    (HandlerEvent.logConsole ∈ globalErrorHandlerRun env e ↔
      env = "development") ∧
    ¬(HandlerEvent.logConsole ∈ globalErrorHandlerRun env e ∧
      HandlerEvent.logErrorChannel ∈ globalErrorHandlerRun env e) := by
  unfold globalErrorHandlerRun
  by_cases h : env = "development" <;>
    simp [h, isLogEvent, isResponseEvent, List.countP_cons]

/-- Witness for C8: a concrete non-development run has one log write
and one response write, and does not log to the console. -/
theorem globalErrorHandler_one_log_one_response_witness :
    List.countP isLogEvent
      (globalErrorHandlerRun "production" (JSError.nonError none)) = 1 ∧
    List.countP isResponseEvent
      (globalErrorHandlerRun "production" (JSError.nonError none)) = 1 ∧
    HandlerEvent.logConsole ∉
      globalErrorHandlerRun "production" (JSError.nonError none) := by
  have h := globalErrorHandler_one_log_one_response "production"
    (JSError.nonError none)
  exact ⟨h.1, h.2.1, fun hc => by
    have := h.2.2.1.mp hc
    exact absurd this (by decide)⟩

/-- C9: when an unhandled rejection occurs with the listener active,
the process closes the listener first, then logs the rejection to the
error sink, then exits with status 1; with the listener reference
unset it exits with status 1 immediately, without logging. -/
theorem onUnhandledRejection_trace :
    onUnhandledRejection (some ()) =
      [ServerEvent.closeListener, ServerEvent.logRejectionToErrorSink,
       ServerEvent.exitProcess 1] ∧
    onUnhandledRejection none = [ServerEvent.exitProcess 1] ∧
    ServerEvent.logRejectionToErrorSink ∉ onUnhandledRejection none :=
  ⟨rfl, rfl, by decide⟩

/-- C3 counterexample: with `meta` omitted from the input, the
serialized body's meta field is absent (the source computes
`data.meta || null || undefined`, i.e. `undefined`, which JSON
serialization drops), not the JSON null the claim requires. -/
theorem sendResponse_meta_absent_counterexample :
    (sendResponse { statusCode := 200, success := true, message := none,
                    meta := none, data := none }).meta = JField.absent ∧
    JField.absent ≠ (JField.nullVal : JField IMeta) :=
  ⟨rfl, by decide⟩

/-- C3 amended: omitted `message` and `data` serialize as null and are
never absent from the body, but an omitted `meta` is absent from the
serialized body rather than null. -/
theorem sendResponse_field_defaulting (d : IApiResponse) :
    (sendResponse d).message ≠ JField.absent ∧
    (sendResponse d).data ≠ JField.absent ∧
    (d.message = none → (sendResponse d).message = JField.nullVal) ∧
    (d.data = none → (sendResponse d).data = JField.nullVal) ∧
    (d.meta = none → (sendResponse d).meta = JField.absent) := by
  obtain ⟨sc, suc, msg, meta, data⟩ := d
  refine ⟨?_, ?_, ?_, ?_, ?_⟩
  · cases msg with
    | none => simp [sendResponse]
    | some v => by_cases hv : truthy v <;> simp [sendResponse, hv]
  · cases data with
    | none => simp [sendResponse]
    | some v => by_cases hv : truthy v <;> simp [sendResponse, hv]
  · intro h
    simp only at h
    subst h
    rfl
  · intro h
    simp only at h
    subst h
    rfl
  · intro h
    simp only at h
    subst h
    rfl

/-- Witness for the amended C3: on an input omitting all three optional
fields, message and data serialize as null and meta is absent. -/
theorem sendResponse_field_defaulting_witness :
    (sendResponse { statusCode := 200, success := true, message := none,
                    meta := none, data := none }).message = JField.nullVal ∧
    (sendResponse { statusCode := 200, success := true, message := none,
                    meta := none, data := none }).data = JField.nullVal ∧
    (sendResponse { statusCode := 200, success := true, message := none,
                    meta := none, data := none }).meta = JField.absent :=
  ⟨(sendResponse_field_defaulting _).2.2.1 rfl,
   (sendResponse_field_defaulting _).2.2.2.1 rfl,
   (sendResponse_field_defaulting _).2.2.2.2 rfl⟩

/-- C4 counterexample: the root route responds 200 with the bare,
unwrapped text payload, which does not conform to the envelope shape. -/
theorem rootRoute_bare_counterexample :
    appRespond { method := "GET", originalUrl := "/" } =
      { status := 200, body := ResponseBody.bareText "Hello World!" } ∧
    isEnvelope (ResponseBody.bareText "Hello World!") = false := by
  constructor
  · rfl
  · rfl

/-- C4 amended: every response of the application other than the root
route's conforms to the wrapped-envelope shape; the root route returns
the bare text payload. -/
theorem appRespond_envelope_except_root (req : AppRequest) :
    ¬(req.method = "GET" ∧ req.originalUrl = "/") →
      isEnvelope (appRespond req).body = true := by
  intro h
  unfold appRespond
  split
  · next hc =>
    exfalso
    apply h
    constructor
    · have := Bool.and_elim_left hc
      exact of_decide_eq_true this
    · have := Bool.and_elim_right hc
      exact of_decide_eq_true this
  · rfl

/-- Witness for the amended C4: an unknown path gets the wrapped 404
envelope. -/
theorem appRespond_envelope_except_root_witness :
    isEnvelope (appRespond { method := "GET",
                             originalUrl := "/unknown" }).body = true :=
  appRespond_envelope_except_root
    { method := "GET", originalUrl := "/unknown" } (by decide)

/-- C5: on every input the resolved skip equals
(resolved page - 1) * resolved limit under JavaScript number
arithmetic, and every omitted field resolves to its default. -/
theorem calculatePagination_skip_and_defaults (o : IPaginationOptions) :
    (calculatePagination o).skip =
      jnumMul (jnumSub (calculatePagination o).page (JNum.int 1))
        ((calculatePagination o).limit) ∧
    (o.page = none → (calculatePagination o).page = JNum.int 1) ∧
    (o.limit = none → (calculatePagination o).limit = JNum.int 10) ∧
    (o.sortBy = none →
      (calculatePagination o).sortBy = JSVal.vstr "createdAt") ∧
    (o.sortOrder = none →
      (calculatePagination o).sortOrder = JSVal.vstr "desc") := by
  refine ⟨rfl, ?_, ?_, ?_, ?_⟩ <;> intro h <;>
    simp [calculatePagination, jsOr, h, toNumber]

/-- Witness for C5: with every field omitted the helper resolves the
documented defaults and skip 0. -/
theorem calculatePagination_skip_and_defaults_witness :
    (calculatePagination { page := none, limit := none, sortBy := none,
                           sortOrder := none }).page = JNum.int 1 ∧
    (calculatePagination { page := none, limit := none, sortBy := none,
                           sortOrder := none }).limit = JNum.int 10 ∧
    (calculatePagination { page := none, limit := none, sortBy := none,
                           sortOrder := none }).sortBy =
      JSVal.vstr "createdAt" ∧
    (calculatePagination { page := none, limit := none, sortBy := none,
                           sortOrder := none }).sortOrder =
      JSVal.vstr "desc" ∧
    (calculatePagination { page := none, limit := none, sortBy := none,
                           sortOrder := none }).skip = JNum.int 0 :=
  ⟨(calculatePagination_skip_and_defaults _).2.1 rfl,
   (calculatePagination_skip_and_defaults _).2.2.1 rfl,
   (calculatePagination_skip_and_defaults _).2.2.2.1 rfl,
   (calculatePagination_skip_and_defaults _).2.2.2.2 rfl,
   rfl⟩

/-- C6: the pagination helper performs no validation or clamping after
numeric coercion: the string input 0 resolves page and limit to the
number 0, and a non-numeric string input resolves page — and hence
skip — to NaN. -/
theorem calculatePagination_no_clamping :
    (calculatePagination { page := some (JSVal.vstr "0"),
                           limit := some (JSVal.vstr "0"), sortBy := none,
                           sortOrder := none }).page = JNum.int 0 ∧
    (calculatePagination { page := some (JSVal.vstr "0"),
                           limit := some (JSVal.vstr "0"), sortBy := none,
                           sortOrder := none }).limit = JNum.int 0 ∧
    (calculatePagination { page := some (JSVal.vstr "abc"),
                           limit := none, sortBy := none,
                           sortOrder := none }).page = JNum.nan ∧
    (calculatePagination { page := some (JSVal.vstr "abc"),
                           limit := none, sortBy := none,
                           sortOrder := none }).skip = JNum.nan := by
  refine ⟨?_, ?_, ?_, ?_⟩ <;> decide

/-- Lookup on a cons cell. -/
theorem getProp_cons (p : String × JSVal) (rest : JSObj) (q : String) :
    getProp (p :: rest) q = if p.1 = q then some p.2 else getProp rest q := by
  unfold getProp
  by_cases hp : p.1 = q
  · rw [List.find?_cons_of_pos _ (by simp [hp]), if_pos hp]
    rfl
  · rw [List.find?_cons_of_neg _ (by simp [hp]), if_neg hp]

/-- Looking up the key just assigned yields the assigned value. -/
theorem getProp_setProp_self (o : JSObj) (k : String) (v : JSVal) :
    getProp (setProp o k v) k = some v := by
  induction o with
  | nil =>
    rw [show setProp [] k v = [(k, v)] from rfl, getProp_cons]
    simp
  | cons p rest ih =>
    unfold setProp
    by_cases hp : p.1 = k
    · rw [if_pos hp, getProp_cons]
      simp
    · rw [if_neg hp, getProp_cons, if_neg hp]
      exact ih

/-- Assignment to one key leaves every other key's lookup unchanged. -/
theorem getProp_setProp_ne (o : JSObj) (k q : String) (v : JSVal)
    (h : q ≠ k) : getProp (setProp o k v) q = getProp o q := by
  induction o with
  | nil =>
    rw [show setProp [] k v = [(k, v)] from rfl, getProp_cons]
    rw [if_neg (fun hh => h hh.symm)]
  | cons p rest ih =>
    unfold setProp
    by_cases hp : p.1 = k
    · have hpq : p.1 ≠ q := by
        rw [hp]
        exact fun hh => h hh.symm
      rw [if_pos hp, getProp_cons, getProp_cons,
        if_neg (fun hh => h hh.symm), if_neg hpq]
    · rw [if_neg hp, getProp_cons, getProp_cons, ih]

/-- A key that is an own property has a present lookup. -/
theorem getProp_isSome_of_hasOwn (o : JSObj) (k : String)
    (h : hasOwnProperty o k = true) : (getProp o k).isSome := by
  induction o with
  | nil => simp [hasOwnProperty] at h
  | cons p rest ih =>
    rw [getProp_cons]
    by_cases hp : p.1 = k
    · simp [hp]
    · rw [if_neg hp]
      apply ih
      simpa [hasOwnProperty, hp] using h

/-- A key that is an own property looks up to the member-access value. -/
theorem getProp_eq_some_of_hasOwn (o : JSObj) (k : String)
    (h : hasOwnProperty o k = true) : getProp o k = some (getPropD o k) := by
  have hs := getProp_isSome_of_hasOwn o k h
  unfold getPropD
  cases hg : getProp o k with
  | none => rw [hg] at hs; simp at hs
  | some v => rfl

/-- Loop invariant of `pick`: a lookup in the accumulator after folding
over `keys` is the source object's value for listed own properties, and
the prior accumulator value otherwise. -/
theorem pick_go (obj : JSObj) (keys : List String) (acc : JSObj)
    (k : String) :
    getProp (List.foldl (pickStep obj) acc keys) k =
      if k ∈ keys ∧ hasOwnProperty obj k = true then getProp obj k
      else getProp acc k := by
  induction keys generalizing acc with
  | nil => simp
  | cons key rest ih =>
    rw [List.foldl_cons, ih]
    by_cases hmem : k ∈ rest ∧ hasOwnProperty obj k = true
    · rw [if_pos hmem, if_pos ⟨List.mem_cons_of_mem _ hmem.1, hmem.2⟩]
    · rw [if_neg hmem]
      by_cases hk : k = key
      · subst hk
        by_cases hown : hasOwnProperty obj k = true
        · rw [if_pos ⟨List.mem_cons_self _ _, hown⟩]
          unfold pickStep
          rw [if_pos hown, getProp_setProp_self,
            getProp_eq_some_of_hasOwn obj k hown]
        · rw [if_neg (fun hc => hown hc.2)]
          unfold pickStep
          rw [if_neg hown]
      · have hni : ¬(k ∈ key :: rest ∧ hasOwnProperty obj k = true) := by
          rintro ⟨hm, ho⟩
          rcases List.mem_cons.mp hm with h1 | h1
          · exact hk h1
          · exact hmem ⟨h1, ho⟩
        rw [if_neg hni]
        unfold pickStep
        split
        · rw [getProp_setProp_ne _ _ _ _ hk]
        · rfl

/-- C10: a lookup in the object `pick` returns yields exactly the
values of the listed keys that are own properties of the source
object, and nothing for any other key; the embedding is pure, so the
source object is left unmodified. -/
theorem pick_getProp (obj : JSObj) (keys : List String) (k : String) :
    getProp (pick obj keys) k =
      if k ∈ keys ∧ hasOwnProperty obj k = true then getProp obj k
      else none := by
  unfold pick
  rw [pick_go]
  rfl
